import Mathlib

/-!
# Verification of the `wheres-my-pizza` restaurant order system

A shallow embedding, in Lean 4, of the order-fulfilment pipeline of the
`wheres-my-pizza` repository, together with theorems settling the frozen
claims about it.

The repository contains two parallel Go implementations of the order
intake path:

* the `restaurant-system` tree (wired up by `cmd/main.go`): the models
  package (`CalculatePriority`, `validateConditionalFields`,
  `ParseOrderTypes`, `GetCookingTime`, ...), the transactional
  `order.Service.CreateOrder`, the kitchen worker, the consumer and the
  tracking service;
* the unfinished `where-is-my-pizza` rewrite: `OrderService.CreateOrder`
  with `setOrderPriority` and the separate `validation` package with
  `validateOrderTypeConditions`.

Both are embedded here, since the claims cite symbols from both.

Modelling conventions:

* Go `float64` dollar amounts are modelled as exact rationals (`ℚ`);
  the inputs and thresholds involved (prices with two decimals, 50, 100)
  are exactly representable in `float64`, so the branch structure of the
  embedded functions coincides with the Go code on the relevant domain.
* Go `time.Time` / `time.Duration` values are modelled as integer numbers
  of seconds.
* Go strings are modelled as Lean `String` where only whole-string
  comparison matters, and as `List Char` where the code manipulates the
  string contents (order-number formatting and parsing, URL paths,
  comma-separated specialization lists); the strings involved are ASCII,
  so Go's byte-wise `len` agrees with the character count.
* PostgreSQL state is modelled as explicit lists of rows, and fallible
  operations (individual statements, commits, publishes) are driven by an
  explicit failure oracle; a transaction applies its statements to a
  scratch copy of the state which replaces the real state only on a
  successful commit, while non-transactional code applies each statement
  to the real state directly.
-/

/-! ## Shared data model (internal/models, order/internal/domain) -/

/-- Dollar amounts (`float64` in Go) as exact rationals. -/
abbrev Money : Type := ℚ

/-- Go `models.OrderType` is a string type; the three enumerated values
are `dine_in`, `takeout` and `delivery`. -/
abbrev OrderType : Type := String

/-- `models.DineIn` -/
def DineIn : OrderType := "dine_in"

/-- `models.Takeout` -/
def Takeout : OrderType := "takeout"

/-- `models.Delivery` -/
def Delivery : OrderType := "delivery"

/-- `models.OrderItem` / `domain.OrderItem`: name, quantity, unit price. -/
structure OrderItem where
  name : String
  quantity : ℤ
  price : Money
deriving DecidableEq, Repr

/-- `models.CreateOrderRequest`: the body of `POST /orders` in the
`restaurant-system` tree (optional table number and delivery address). -/
structure CreateOrderRequest where
  customerName : String
  orderType : String
  tableNumber : Option ℤ
  deliveryAddress : Option String
  items : List OrderItem
deriving DecidableEq, Repr

/-- `domain.OrderRequest`: the request type of the `where-is-my-pizza`
rewrite; `table_number` and `delivery_address` are plain (non-pointer)
fields whose zero values are `0` and `""`. -/
structure OrderRequest where
  customerName : String
  orderType : String
  tableNumber : ℤ
  deliveryAddr : String
  items : List OrderItem
deriving DecidableEq, Repr

/-- `models.CreateOrderResponse` / `domain.OrderResponse`. -/
structure CreateOrderResponse where
  orderNumber : String
  status : String
  totalAmount : Money
deriving DecidableEq, Repr

/-! ## Claim C1: derived priority (part_006 `CalculatePriority`,
service.go `setOrderPriority`) -/

/-- `CreateOrderRequest.CalculateTotalAmount` (part_006 lines 116-122):
`total := 0.0; for _, item := range req.Items { total += item.Price *
float64(item.Quantity) }`. -/
def CalculateTotalAmount (req : CreateOrderRequest) : Money :=
  req.items.foldl (fun total item => total + item.price * (item.quantity : Money)) 0

/-- `CreateOrderRequest.CalculatePriority` (part_006 lines 125-134):
`if total > 100.0 { return 10 }; if total >= 50.0 { return 5 }; return 1`. -/
def CalculatePriority (req : CreateOrderRequest) : ℤ :=
  let total := CalculateTotalAmount req
  if total > 100 then 10
  else if total ≥ 50 then 5
  else 1

/-- `OrderService.setOrderPriority`
(src/internal/services/order/service.go lines 89-100, identically in
part_003): `if resp.TotalAmount > 100 { priority = 10 } else if
resp.TotalAmount > 50 { priority = 5 } else { priority = 1 }`.
It reads only the response's total amount, which is the argument here. -/
def setOrderPriority (totalAmount : Money) : ℤ :=
  if totalAmount > 100 then 10
  else if totalAmount > 50 then 5
  else 1

/-- A single-item request with the given price and quantity 1, used to
evaluate the priority derivation at concrete totals. -/
def singleItemRequest (price : Money) : CreateOrderRequest :=
  { customerName := "Jane Smith"
    orderType := "takeout"
    tableNumber := none
    deliveryAddress := none
    items := [{ name := "Pizza", quantity := 1, price := price }] }

/-! ## Claim C3: type-conditional field validation
(part_006 `validateConditionalFields`, part_004 `validateOrderTypeConditions`) -/

/-- `validateConditionalFields` (part_006 lines 170-203): the
`restaurant-system` models-package check of the type-conditional fields.
`none` means no error; `some msg` is the `fmt.Errorf` message. -/
def validateConditionalFields (orderType : OrderType) (tableNumber : Option ℤ)
    (deliveryAddress : Option String) : Option String :=
  if orderType = DineIn then
    match tableNumber with
    | none => some "table_number is required for dine_in orders"
    | some t =>
      if t < 1 ∨ t > 100 then some "table_number must be between 1 and 100"
      else if deliveryAddress.isSome then
        some "delivery_address must not be present for dine_in orders"
      else none
  else if orderType = Delivery then
    match deliveryAddress with
    | none => some "delivery_address is required for delivery orders"
    | some a =>
      if a = "" then some "delivery_address is required for delivery orders"
      else if a.length < 10 then some "delivery_address must be at least 10 characters"
      else if tableNumber.isSome then
        some "table_number must not be present for delivery orders"
      else none
  else if orderType = Takeout then
    if tableNumber.isSome then some "table_number must not be present for takeout orders"
    else if deliveryAddress.isSome then
      some "delivery_address must not be present for takeout orders"
    else none
  else none

/-- `validation.ValidationError` (part_004): a field name and a message. -/
structure ValidationError where
  field : String
  message : String
deriving DecidableEq, Repr

/-- `validation.validateOrderTypeConditions` (part_004 lines 76-92): the
only type-conditional checks of the `where-is-my-pizza` validation
package — `delivery` requires a non-empty address and `dine_in` requires
a non-zero table number; nothing else is checked. -/
def validateOrderTypeConditions (req : OrderRequest) : Option ValidationError :=
  if req.orderType = "delivery" ∧ req.deliveryAddr = "" then
    some { field := "delivery_address"
           message := "delivery address is required for delivery orders" }
  else if req.orderType = "dine_in" ∧ req.tableNumber = 0 then
    some { field := "table_number"
           message := "table number is required for dine-in orders" }
  else none

/-! ## Claim theorems C1 and C3 -/

/-- Claim C1 (code bug): the derived priority is claimed to be 10 for
total > 100, 5 for 50 ≤ total ≤ 100 (so 5 at exactly 50 and at exactly
100), else 1. `models.CalculatePriority` — used by the wired
`order.Service.CreateOrder` — satisfies this, including both boundaries
and 100.01 → 10; but the rewrite's `OrderService.setOrderPriority`
tests `TotalAmount > 50`, so a total of exactly 50 yields priority 1
there, contradicting the claim and §3/§8 of the specification. -/
theorem calculatePriority_boundaries_and_setOrderPriority_bug :
    CalculatePriority (singleItemRequest 50) = 5 ∧
    CalculatePriority (singleItemRequest 100) = 5 ∧
    CalculatePriority (singleItemRequest (100 + 1/100)) = 10 ∧
    CalculatePriority (singleItemRequest 101) = 10 ∧
    CalculatePriority (singleItemRequest 49) = 1 ∧
    setOrderPriority 50 = 1 ∧
    setOrderPriority 51 = 5 := by
  refine ⟨?_, ?_, ?_, ?_, ?_, ?_, ?_⟩ <;>
    norm_num [CalculatePriority, CalculateTotalAmount, singleItemRequest, setOrderPriority]

/-- Claim C3 (code bug): a `dine_in` request carrying a delivery address,
a `delivery` request carrying a table number or a too-short address, and
a `takeout` request carrying either field, are all rejected (with the
conflicting field named) by the models-package `validateConditionalFields`
— but the rewrite's `validation.validateOrderTypeConditions` accepts every
one of these conflicting combinations, returning no error. -/
theorem validateConditionalFields_vs_validateOrderTypeConditions :
    validateConditionalFields DineIn (some 5) (some "123 Main Street") =
      some "delivery_address must not be present for dine_in orders" ∧
    validateConditionalFields Delivery (some 3) (some "123 Main Street") =
      some "table_number must not be present for delivery orders" ∧
    validateConditionalFields Delivery none (some "short") =
      some "delivery_address must be at least 10 characters" ∧
    validateConditionalFields Takeout (some 3) none =
      some "table_number must not be present for takeout orders" ∧
    validateConditionalFields Takeout none (some "123 Main Street") =
      some "delivery_address must not be present for takeout orders" ∧
    validateConditionalFields DineIn (some 5) none = none ∧
    validateOrderTypeConditions
      { customerName := "John Doe", orderType := "dine_in", tableNumber := 5,
        deliveryAddr := "123 Main Street",
        items := [{ name := "Pizza", quantity := 1, price := 10 }] } = none ∧
    validateOrderTypeConditions
      { customerName := "John Doe", orderType := "delivery", tableNumber := 3,
        deliveryAddr := "123 Main Street",
        items := [{ name := "Pizza", quantity := 1, price := 10 }] } = none ∧
    validateOrderTypeConditions
      { customerName := "John Doe", orderType := "delivery", tableNumber := 0,
        deliveryAddr := "short",
        items := [{ name := "Pizza", quantity := 1, price := 10 }] } = none ∧
    validateOrderTypeConditions
      { customerName := "John Doe", orderType := "takeout", tableNumber := 3,
        deliveryAddr := "123 Main Street",
        items := [{ name := "Pizza", quantity := 1, price := 10 }] } = none := by
  decide

/-! ## Claim C7: worker roster liveness override
(tracking/service.go `GetWorkerStatus`, models/worker.go `IsOnline`) -/

/-- A row of the `workers` table as scanned by `GetAllWorkersSQL`.
`lastSeen` is a timestamp in seconds. -/
structure WorkerRow where
  name : String
  type : String
  status : String
  ordersProcessed : ℤ
  lastSeen : ℤ
deriving DecidableEq, Repr

/-- `models.WorkerStatusResponse`. -/
structure WorkerStatusResponse where
  workerName : String
  status : String
  ordersProcessed : ℤ
  lastSeen : ℤ
deriving DecidableEq, Repr

/-- The roster's liveness threshold (tracking/service.go line 138):
`heartbeatThreshold := 2 * 30 * time.Second`, i.e. twice the default
30-second heartbeat interval, in seconds. -/
def heartbeatThresholdSeconds : ℤ := 2 * 30

/-- The per-row status derivation of `Service.GetWorkerStatus`
(tracking/service.go lines 157-163): `actualStatus := string(worker.Status);
if worker.Status == models.WorkerOnline { if time.Since(worker.LastSeen) >
heartbeatThreshold { actualStatus = "offline" } }`. `sinceLastSeen` is
`now - lastSeen` in seconds. -/
def deriveWorkerStatus (persisted : String) (sinceLastSeen : ℤ) : String :=
  if persisted = "online" ∧ sinceLastSeen > heartbeatThresholdSeconds then "offline"
  else persisted

/-- `Service.GetWorkerStatus` (tracking/service.go lines 129-181): maps
every scanned worker row to a response whose status is the derived one. -/
def GetWorkerStatus (now : ℤ) (rows : List WorkerRow) : List WorkerStatusResponse :=
  rows.map fun w =>
    { workerName := w.name
      status := deriveWorkerStatus w.status (now - w.lastSeen)
      ordersProcessed := w.ordersProcessed
      lastSeen := w.lastSeen }

/-- `Worker.IsOnline` (models/worker.go lines 87-95): `if w.Status ==
WorkerOffline { return false }; threshold := 2 * heartbeatInterval;
return time.Since(w.LastSeen) <= threshold`. -/
def IsOnline (status : String) (sinceLastSeen heartbeatInterval : ℤ) : Bool :=
  if status = "offline" then false
  else decide (sinceLastSeen ≤ 2 * heartbeatInterval)

/-- Claim C7 (confirmed): every worker row of the roster query yields
exactly one response row; a row whose `last_seen` is more than twice the
heartbeat interval old is reported `offline` even when its persisted
status is `online`, and a row within the threshold is reported with its
persisted status (as is a row whose persisted status is not `online`). -/
theorem workerStatus_liveness_override (now : ℤ) (rows : List WorkerRow)
    (w : WorkerRow) (hmem : w ∈ rows) :
    ∃ resp ∈ GetWorkerStatus now rows,
      resp.workerName = w.name ∧
      resp.ordersProcessed = w.ordersProcessed ∧
      resp.lastSeen = w.lastSeen ∧
      (w.status = "online" → now - w.lastSeen > heartbeatThresholdSeconds →
        resp.status = "offline") ∧
      (now - w.lastSeen ≤ heartbeatThresholdSeconds → resp.status = w.status) ∧
      (w.status ≠ "online" → resp.status = w.status) := by
  refine ⟨_, List.mem_map_of_mem _ hmem, rfl, rfl, rfl, ?_, ?_, ?_⟩
  · intro hon hstale
    simp [deriveWorkerStatus, hon, hstale]
  · intro hfresh
    simp only [deriveWorkerStatus, heartbeatThresholdSeconds] at *
    rw [if_neg]
    rintro ⟨-, hgt⟩
    omega
  · intro hnot
    simp [deriveWorkerStatus, hnot]

/-- Witness for C7: a concrete stale-but-persisted-online worker row is
reported offline, and a fresh row keeps its persisted status. -/
theorem workerStatus_liveness_override_witness :
    ∃ resp ∈ GetWorkerStatus 1000 [⟨"chef_mario", "general", "online", 7, 100⟩],
      resp.workerName = "chef_mario" ∧
      resp.ordersProcessed = 7 ∧
      resp.lastSeen = 100 ∧
      ((1000 : ℤ) - 100 > heartbeatThresholdSeconds → resp.status = "offline") := by
  obtain ⟨resp, hmem, h1, h2, h3, h4, -, -⟩ :=
    workerStatus_liveness_override 1000 [⟨"chef_mario", "general", "online", 7, 100⟩]
      ⟨"chef_mario", "general", "online", 7, 100⟩ (by decide)
  exact ⟨resp, hmem, h1, h2, h3, fun h => h4 rfl h⟩

/-! ## Claim C8: estimated completion time
(tracking/service.go `GetOrderStatus`, models/message.go `GetCookingTime`) -/

/-- `models.GetCookingTime` (message.go lines 57-68), in seconds:
dine_in 8, takeout 10, delivery 12, default 10. -/
def GetCookingTime (orderType : String) : ℤ :=
  if orderType = "dine_in" then 8
  else if orderType = "takeout" then 10
  else if orderType = "delivery" then 12
  else 10

/-- An `orders` row as scanned by `GetOrderByNumberSQL` (only the fields
`Service.GetOrderStatus` reads). `updatedAt` is a timestamp in seconds. -/
structure TrackedOrder where
  number : String
  type : String
  status : String
  updatedAt : ℤ
  processedBy : Option String
deriving DecidableEq, Repr

/-- `models.OrderTrackingResponse`, with `estimated_completion` optional
(omitted when `none`). -/
structure OrderTrackingResponse where
  orderNumber : String
  currentStatus : String
  updatedAt : ℤ
  estimatedCompletion : Option ℤ
  processedBy : Option String
deriving DecidableEq, Repr

/-- `Service.GetOrderStatus` (tracking/service.go lines 29-75): look the
order up by number (`number` is UNIQUE, so at most one row); `ErrNoRows`
becomes the `order not found` error; `estimated_completion` is populated
as `updated_at + cooking time` exactly when the status is `cooking`. -/
def GetOrderStatus (db : List TrackedOrder) (orderNumber : String) :
    Except String OrderTrackingResponse :=
  match db.find? (fun o => o.number = orderNumber) with
  | none => .error "order not found"
  | some o =>
    .ok { orderNumber := o.number
          currentStatus := o.status
          updatedAt := o.updatedAt
          estimatedCompletion :=
            if o.status = "cooking" then some (o.updatedAt + GetCookingTime o.type) else none
          processedBy := o.processedBy }

/-- Claim C8 (confirmed): for an unknown order number the status query
fails with the not-found error; for a known one it succeeds, and its
`estimated_completion` equals `updated_at` plus the type's cooking time
(dine_in 8 s, takeout 10 s, delivery 12 s) if and only if the current
status is `cooking`, being absent for every other status. -/
theorem orderStatus_estimatedCompletion_iff_cooking (db : List TrackedOrder)
    (num : String) :
    (db.find? (fun o => o.number = num) = none →
      GetOrderStatus db num = .error "order not found") ∧
    (∀ o, db.find? (fun o => o.number = num) = some o →
      ∃ resp, GetOrderStatus db num = .ok resp ∧
        resp.orderNumber = o.number ∧
        resp.currentStatus = o.status ∧
        resp.updatedAt = o.updatedAt ∧
        resp.processedBy = o.processedBy ∧
        (resp.estimatedCompletion = some (o.updatedAt + GetCookingTime o.type) ↔
          o.status = "cooking") ∧
        (o.status ≠ "cooking" → resp.estimatedCompletion = none)) ∧
    GetCookingTime "dine_in" = 8 ∧ GetCookingTime "takeout" = 10 ∧
    GetCookingTime "delivery" = 12 := by
  refine ⟨?_, ?_, by decide, by decide, by decide⟩
  · intro hnone
    simp [GetOrderStatus, hnone]
  · intro o hfound
    refine ⟨{ orderNumber := o.number
              currentStatus := o.status
              updatedAt := o.updatedAt
              estimatedCompletion :=
                if o.status = "cooking" then some (o.updatedAt + GetCookingTime o.type)
                else none
              processedBy := o.processedBy }, ?_, rfl, rfl, rfl, rfl, ?_, ?_⟩
    · simp [GetOrderStatus, hfound]
    · by_cases hc : o.status = "cooking" <;> simp [hc]
    · intro hc
      simp [hc]

/-- Witness for C8: on a concrete two-order store, the cooking delivery
order's estimated completion is `updated_at + 12`, the ready order has
none, and an unknown number yields the not-found error. -/
theorem orderStatus_estimatedCompletion_witness :
    GetOrderStatus
        [⟨"ORD_20250101_001", "delivery", "cooking", 500, some "chef_mario"⟩]
        "ORD_20250101_001" =
      .ok ⟨"ORD_20250101_001", "cooking", 500, some 512, some "chef_mario"⟩ ∧
    GetOrderStatus ([] : List TrackedOrder) "ORD_20250101_002" =
      .error "order not found" := by
  constructor
  · obtain ⟨-, hsome, -⟩ :=
      orderStatus_estimatedCompletion_iff_cooking
        [⟨"ORD_20250101_001", "delivery", "cooking", 500, some "chef_mario"⟩]
        "ORD_20250101_001"
    obtain ⟨resp, hq, h1, h2, h3, h4, h5, -⟩ :=
      hsome ⟨"ORD_20250101_001", "delivery", "cooking", 500, some "chef_mario"⟩ (by decide)
    have h6 : resp.estimatedCompletion = some 512 := by
      rw [h5.mpr rfl]
      decide
    rw [hq]
    cases resp
    simp_all
  · obtain ⟨hnone, -⟩ :=
      orderStatus_estimatedCompletion_iff_cooking ([] : List TrackedOrder) "ORD_20250101_002"
    exact hnone (by decide)

/-! ## Claim C9: specialization parsing
(models/worker.go `ParseOrderTypes`, kitchen/worker.go `canHandleOrderType`) -/

/-- The whitespace characters stripped by `strings.TrimSpace`
(ASCII range of `unicode.IsSpace`). -/
def isSpaceCh (c : Char) : Bool :=
  c = ' ' ∨ c = '\t' ∨ c = '\n' ∨ c = '\x0b' ∨ c = '\x0c' ∨ c = '\r'

/-- `strings.TrimSpace` on a character list. -/
def trimSpaceCh (l : List Char) : List Char :=
  ((l.dropWhile isSpaceCh).reverse.dropWhile isSpaceCh).reverse

/-- `strings.Split(s, ",")` on a character list. -/
def splitComma : List Char → List (List Char)
  | [] => [[]]
  | c :: rest =>
    if c = ',' then [] :: splitComma rest
    else
      match splitComma rest with
      | [] => [[c]]
      | g :: gs => (c :: g) :: gs

/-- The loop body of `models.ParseOrderTypes` (worker.go lines 54-64):
trim each part and keep only the recognized tokens `dine_in`, `takeout`,
`delivery`; every other token is silently dropped. -/
def parseOrderTypesLoop : List (List Char) → List OrderType
  | [] => []
  | part :: rest =>
    let trimmed := trimSpaceCh part
    if trimmed = "dine_in".data then DineIn :: parseOrderTypesLoop rest
    else if trimmed = "takeout".data then Takeout :: parseOrderTypesLoop rest
    else if trimmed = "delivery".data then Delivery :: parseOrderTypesLoop rest
    else parseOrderTypesLoop rest

/-- `models.ParseOrderTypes` (models/worker.go lines 46-67): the empty
string yields `nil`; otherwise split on commas and keep recognized
tokens. -/
def ParseOrderTypes (s : List Char) : List OrderType :=
  if s = [] then []
  else parseOrderTypesLoop (splitComma s)

/-- `Worker.canHandleOrderType` (kitchen/worker.go lines 294-308, same
logic as `models.Worker.CanHandleOrderType`): an empty specialization
list accepts every order type; otherwise the type must be listed. -/
def canHandleOrderType (orderTypes : List OrderType) (orderType : OrderType) : Bool :=
  if orderTypes = [] then true
  else orderTypes.any (fun s => s = orderType)

lemma parseOrderTypesLoop_mem (parts : List (List Char)) (x : OrderType)
    (hx : x ∈ parseOrderTypesLoop parts) : x = DineIn ∨ x = Takeout ∨ x = Delivery := by
  induction parts with
  | nil => simp [parseOrderTypesLoop] at hx
  | cons part rest ih =>
    by_cases h1 : trimSpaceCh part = "dine_in".data
    · rw [parseOrderTypesLoop, if_pos h1] at hx
      rcases List.mem_cons.mp hx with h | h
      · exact Or.inl h
      · exact ih h
    · by_cases h2 : trimSpaceCh part = "takeout".data
      · rw [parseOrderTypesLoop, if_neg h1, if_pos h2] at hx
        rcases List.mem_cons.mp hx with h | h
        · exact Or.inr (Or.inl h)
        · exact ih h
      · by_cases h3 : trimSpaceCh part = "delivery".data
        · rw [parseOrderTypesLoop, if_neg h1, if_neg h2, if_pos h3] at hx
          rcases List.mem_cons.mp hx with h | h
          · exact Or.inr (Or.inr h)
          · exact ih h
        · rw [parseOrderTypesLoop, if_neg h1, if_neg h2, if_neg h3] at hx
          exact ih hx

lemma parseOrderTypesLoop_eq_nil (parts : List (List Char))
    (h : ∀ part ∈ parts,
      trimSpaceCh part ∉ ["dine_in".data, "takeout".data, "delivery".data]) :
    parseOrderTypesLoop parts = [] := by
  induction parts with
  | nil => rfl
  | cons part rest ih =>
    have hp := h part (List.mem_cons_self part rest)
    simp only [List.mem_cons, List.mem_singleton, not_or] at hp
    obtain ⟨h1, h2, h3, -⟩ := hp
    rw [parseOrderTypesLoop, if_neg h1, if_neg h2, if_neg h3]
    exact ih fun p hmem => h p (List.mem_cons_of_mem _ hmem)

/-- Claim C9 (confirmed): `ParseOrderTypes` silently drops every token
other than `dine_in`, `takeout`, `delivery` (everything it keeps is one
of the three); a specialization string with only unrecognized tokens
parses to the empty list; and the worker's `canHandleOrderType` accepts
every order type when the specialization list is empty. -/
theorem parseOrderTypes_drops_unknown_tokens (s : List Char) (t : OrderType) :
    (∀ x ∈ ParseOrderTypes s, x = DineIn ∨ x = Takeout ∨ x = Delivery) ∧
    ((∀ part ∈ splitComma s,
        trimSpaceCh part ∉ ["dine_in".data, "takeout".data, "delivery".data]) →
      ParseOrderTypes s = []) ∧
    canHandleOrderType [] t = true := by
  refine ⟨?_, ?_, rfl⟩
  · intro x hx
    by_cases hs : s = []
    · rw [ParseOrderTypes, if_pos hs] at hx
      simp at hx
    · rw [ParseOrderTypes, if_neg hs] at hx
      exact parseOrderTypesLoop_mem _ _ hx
  · intro hall
    by_cases hs : s = []
    · rw [ParseOrderTypes, if_pos hs]
    · rw [ParseOrderTypes, if_neg hs]
      exact parseOrderTypesLoop_eq_nil _ hall

/-- Witness for C9: a worker started with `-order-types "pizza, sushi"`
ends up with the empty specialization list and accepts `delivery` work. -/
theorem parseOrderTypes_drops_unknown_tokens_witness :
    ParseOrderTypes "pizza, sushi".data = [] ∧ canHandleOrderType [] Delivery = true :=
  ⟨(parseOrderTypes_drops_unknown_tokens "pizza, sushi".data Delivery).2.1 (by decide),
   (parseOrderTypes_drops_unknown_tokens "pizza, sushi".data Delivery).2.2⟩

/-! ## Claim C10: order-number extraction and 400 vs 404
(part_001 `Handler.extractOrderNumber`, `Handler.GetOrderStatus`) -/

/-- `Handler.extractOrderNumber` (part_001 lines 173-188): require the
prefix and suffix, trim them (`strings.TrimPrefix` / `TrimSuffix` each
re-check), then require at least 15 characters starting with `ORD_`;
the empty result signals an invalid number. -/
def extractOrderNumber (path pre suf : List Char) : List Char :=
  if ¬ (pre.isPrefixOf path ∧ suf.isSuffixOf path) then []
  else
    let s1 := if pre.isPrefixOf path then path.drop pre.length else path
    let s2 := if suf.isSuffixOf s1 then s1.take (s1.length - suf.length) else s1
    if s2.length < 15 ∨ ¬ (['O', 'R', 'D', '_'].isPrefixOf s2) then []
    else s2

/-- HTTP outcomes of the tracking handlers (part_001): the status code
together with the JSON payload or error message. -/
inductive TrackingHttpResult where
  | ok (resp : OrderTrackingResponse)
  | okHistory (count : ℕ)
  | badRequest (msg : String)
  | notFound (msg : String)
deriving DecidableEq, Repr

/-- `Handler.GetOrderStatus` (part_001 lines 28-69): an empty extracted
order number yields 400 `Invalid order number` before any store access;
otherwise the service is queried and its `order not found` error (the
only error the embedded service produces) yields 404. -/
def GetOrderStatusHandler (db : List TrackedOrder) (path : List Char) :
    TrackingHttpResult :=
  let orderNumber := extractOrderNumber path "/orders/".data "/status".data
  if orderNumber = [] then .badRequest "Invalid order number"
  else
    match GetOrderStatus db (String.mk orderNumber) with
    | .error _ => .notFound "Order not found"
    | .ok resp => .ok resp

/-- `Handler.GetOrderHistory` (part_001 lines 72-113) down to the
service's existence check (tracking/service.go lines 78-91): 400 on an
empty extracted number, 404 when no order row with that number exists,
otherwise the history rows (their count here). -/
def GetOrderHistoryHandler (db : List TrackedOrder)
    (histLog : List (String × ℤ)) (path : List Char) : TrackingHttpResult :=
  let orderNumber := extractOrderNumber path "/orders/".data "/history".data
  if orderNumber = [] then .badRequest "Invalid order number"
  else if db.any (fun o => o.number = String.mk orderNumber) then
    .okHistory (histLog.filter (fun e => e.1 = String.mk orderNumber)).length
  else .notFound "Order not found"

lemma extractOrderNumber_decomposed (mid pre suf : List Char) :
    extractOrderNumber (pre ++ mid ++ suf) pre suf =
      if mid.length < 15 ∨ ¬ (['O', 'R', 'D', '_'].isPrefixOf mid) then []
      else mid := by
  have hpre : pre.isPrefixOf (pre ++ mid ++ suf) = true := by
    rw [List.isPrefixOf_iff_prefix, List.append_assoc]
    exact List.prefix_append pre (mid ++ suf)
  have hsuf : suf.isSuffixOf (pre ++ mid ++ suf) = true := by
    rw [List.isSuffixOf_iff_suffix]
    exact List.suffix_append (pre ++ mid) suf
  have hdrop : (pre ++ mid ++ suf).drop pre.length = mid ++ suf := by
    rw [List.append_assoc]
    exact List.drop_left pre (mid ++ suf)
  have hsuf2 : suf.isSuffixOf (mid ++ suf) = true := by
    rw [List.isSuffixOf_iff_suffix]
    exact List.suffix_append mid suf
  have htake : (mid ++ suf).take ((mid ++ suf).length - suf.length) = mid := by
    rw [List.length_append, Nat.add_sub_cancel]
    exact List.take_left mid suf
  rw [extractOrderNumber, if_neg (by push_neg; exact ⟨hpre, hsuf⟩)]
  simp only [hpre, hsuf2, hdrop, htake, eq_self_iff_true, if_true]

/-- Claim C10 (confirmed): for a tracking path whose order-number segment
is shorter than 15 characters or does not start with `ORD_`, both the
status and the history endpoints answer 400 `Invalid order number`, and
the answer is the same for every store state (the store is not
consulted); a 404 from the status endpoint conversely implies the
segment was well-formed and no order with that number exists. -/
theorem tracking_400_before_store_404_only_wellformed
    (db db2 : List TrackedOrder) (histLog : List (String × ℤ)) (mid : List Char) :
    ((mid.length < 15 ∨ ¬ (['O', 'R', 'D', '_'].isPrefixOf mid)) →
      GetOrderStatusHandler db ("/orders/".data ++ mid ++ "/status".data) =
        .badRequest "Invalid order number" ∧
      GetOrderStatusHandler db ("/orders/".data ++ mid ++ "/status".data) =
        GetOrderStatusHandler db2 ("/orders/".data ++ mid ++ "/status".data) ∧
      GetOrderHistoryHandler db histLog ("/orders/".data ++ mid ++ "/history".data) =
        .badRequest "Invalid order number") ∧
    (GetOrderStatusHandler db ("/orders/".data ++ mid ++ "/status".data) =
        .notFound "Order not found" →
      15 ≤ mid.length ∧ ['O', 'R', 'D', '_'].isPrefixOf mid ∧
      db.find? (fun o => o.number = String.mk mid) = none) := by
  have hstat := extractOrderNumber_decomposed mid "/orders/".data "/status".data
  have hhist := extractOrderNumber_decomposed mid "/orders/".data "/history".data
  constructor
  · intro hbad
    rw [if_pos hbad] at hstat hhist
    refine ⟨?_, ?_, ?_⟩
    · simp only [GetOrderStatusHandler]
      rw [hstat]
      rfl
    · simp only [GetOrderStatusHandler]
      rw [hstat]
      rfl
    · simp only [GetOrderHistoryHandler]
      rw [hhist]
      rfl
  · intro h404
    by_cases hbad : mid.length < 15 ∨ ¬ (['O', 'R', 'D', '_'].isPrefixOf mid)
    · rw [if_pos hbad] at hstat
      simp only [GetOrderStatusHandler] at h404
      rw [hstat] at h404
      simp at h404
    · push_neg at hbad
      rw [if_neg (by push_neg; exact hbad)] at hstat
      refine ⟨hbad.1, hbad.2, ?_⟩
      simp only [GetOrderStatusHandler] at h404
      rw [hstat] at h404
      by_cases hmid : mid = []
      · subst hmid
        simp at hbad
      · rw [if_neg hmid] at h404
        rcases hq : (GetOrderStatus db (String.mk mid)) with e | resp
        · rw [GetOrderStatus] at hq
          rcases hf : db.find? (fun o => o.number = String.mk mid) with - | o
          · exact hf
          · rw [hf] at hq
            exact absurd hq (by simp)
        · rw [hq] at h404
          exact absurd h404 (by simp)

/-- Witness for C10: the short segment `ORD_1` is rejected with 400 on an
arbitrary store, and the well-formed unknown number `ORD_20250101_001`
yields 404 with an empty store. -/
theorem tracking_400_before_store_404_only_wellformed_witness :
    GetOrderStatusHandler
        [⟨"ORD_20250101_001", "delivery", "cooking", 500, none⟩]
        ("/orders/".data ++ "ORD_1".data ++ "/status".data) =
      .badRequest "Invalid order number" ∧
    (15 ≤ "ORD_20250101_001".data.length ∧
      (['O', 'R', 'D', '_'].isPrefixOf "ORD_20250101_001".data) = true ∧
      ([] : List TrackedOrder).find?
        (fun o => o.number = String.mk "ORD_20250101_001".data) = none) := by
  constructor
  · exact ((tracking_400_before_store_404_only_wellformed
      [⟨"ORD_20250101_001", "delivery", "cooking", 500, none⟩]
      [] [] "ORD_1".data).1 (by decide)).1
  · exact (tracking_400_before_store_404_only_wellformed
      [] [] [] "ORD_20250101_001".data).2 (by decide)

/-! ## Persistence model for order creation and kitchen work
(part_002 `Service.CreateOrder`, order/service.go `OrderService.CreateOrder`,
kitchen/worker.go, messaging/consumer.go) -/

/-- A row of the `orders` table (migration 001): `status` defaults to
`received`, `number` is UNIQUE. Timestamps are omitted except
`completed_at` (in seconds). -/
structure OrderRow where
  id : ℕ
  number : String
  customerName : String
  type : String
  tableNumber : Option ℤ
  deliveryAddress : Option String
  totalAmount : Money
  priority : ℤ
  status : String
  processedBy : Option String
  completedAt : Option ℤ
deriving DecidableEq, Repr

/-- A row of the `order_items` table (migration 002). -/
structure OrderItemRow where
  orderId : ℕ
  name : String
  quantity : ℤ
  price : Money
deriving DecidableEq, Repr

/-- A row of the `order_status_log` table (migration 003). -/
structure StatusLogRow where
  orderId : ℕ
  status : String
  changedBy : String
  notes : String
deriving DecidableEq, Repr

/-- The persistent store: the four tables the pipeline touches.
Serial ids are modelled as `length + 1`. -/
structure DBState where
  orders : List OrderRow
  orderItems : List OrderItemRow
  statusLog : List StatusLogRow
  workers : List WorkerRow
deriving DecidableEq, Repr

/-- The empty store. -/
def emptyDB : DBState := { orders := [], orderItems := [], statusLog := [], workers := [] }

/-- Failure oracle for `Service.CreateOrder` (part_002): which statement,
commit or publish fails on this run. -/
structure FailOracle where
  beginFails : Bool
  insertOrderFails : Bool
  itemInsertFails : ℕ → Bool
  statusLogInsertFails : Bool
  commitFails : Bool
  publishFails : Bool

/-- The item-insert loop of `Service.CreateOrder` (part_002 lines 90-105)
inside the transaction: build the pending `order_items` rows, stopping at
the first failing insert. -/
def insertItemsLoop (orderId : ℕ) (fails : ℕ → Bool) :
    List OrderItem → ℕ → Except String (List OrderItemRow)
  | [], _ => .ok []
  | item :: rest, i =>
    if fails i then .error "failed to insert order item"
    else
      match insertItemsLoop orderId fails rest (i + 1) with
      | .error e => .error e
      | .ok rows =>
        .ok (({ orderId := orderId, name := item.name, quantity := item.quantity,
                price := item.price } : OrderItemRow) :: rows)

/-- The transaction body of `Service.CreateOrder` (part_002 lines 61-128):
begin, insert the order row (the UNIQUE constraint on `number` makes a
duplicate insert fail), insert all item rows, insert the initial
`received` status-log row (`changed_by = "order-service"`), commit.
The pending state becomes visible only through the returned `DBState`;
every error path leaves the store untouched (Go's deferred
`tx.Rollback`). -/
def createOrderTxBody (db : DBState) (req : CreateOrderRequest) (orderNumber : String)
    (o : FailOracle) : Except String (CreateOrderResponse × DBState) :=
  let totalAmount := CalculateTotalAmount req
  let priority := CalculatePriority req
  if o.beginFails then .error "failed to start transaction"
  else if o.insertOrderFails ∨ db.orders.any (fun r => r.number = orderNumber) then
    .error "failed to insert order"
  else
    let orderId := db.orders.length + 1
    let orderRow : OrderRow :=
      { id := orderId, number := orderNumber, customerName := req.customerName,
        type := req.orderType, tableNumber := req.tableNumber,
        deliveryAddress := req.deliveryAddress, totalAmount := totalAmount,
        priority := priority, status := "received", processedBy := none,
        completedAt := none }
    match insertItemsLoop orderId o.itemInsertFails req.items 0 with
    | .error e => .error e
    | .ok itemRows =>
      if o.statusLogInsertFails then .error "failed to insert status log"
      else if o.commitFails then .error "failed to commit transaction"
      else
        .ok ({ orderNumber := orderNumber, status := "received", totalAmount := totalAmount },
          { db with
              orders := db.orders ++ [orderRow]
              orderItems := db.orderItems ++ itemRows
              statusLog := db.statusLog ++
                [{ orderId := orderId, status := "received", changedBy := "order-service",
                   notes := "Order received and processed" }] })

deriving instance DecidableEq for Except

/-- The outcome of `Service.CreateOrder`: the HTTP-level result, the
store afterwards, and whether the work message reached the broker. -/
structure CreateOrderResult where
  result : Except String CreateOrderResponse
  db : DBState
  published : Bool
deriving DecidableEq, Repr

/-- `Service.CreateOrder` (part_002 lines 39-154). The order number is
produced by `generateOrderNumber` (modelled in the order-number section)
and passed in here. After a successful commit the work message is
published; a publish failure is only logged (lines 135-141) and neither
changes the store nor the returned response. -/
def CreateOrder (db : DBState) (req : CreateOrderRequest) (orderNumber : String)
    (o : FailOracle) : CreateOrderResult :=
  match createOrderTxBody db req orderNumber o with
  | .error e => { result := .error e, db := db, published := false }
  | .ok (resp, db') => { result := .ok resp, db := db', published := !o.publishFails }

/-- Failure oracle for the rewrite's `OrderService.CreateOrder`
(order/service.go): `ValidateOrderRequest` is not part of the package's
sources, so only its outcome is modelled. -/
structure SeqFailOracle where
  validateFails : Bool
  insertOrderFails : Bool
  itemInsertFails : ℕ → Bool
  statusLogInsertFails : Bool

/-- `Repository.InsertOrderItems` (order/postgres.go lines 37-46): plain
pool inserts, one per item, outside any transaction — rows inserted
before a failure stay persisted. -/
def insertOrderItemsSeq (orderId : ℕ) (fails : ℕ → Bool) :
    DBState → List OrderItem → ℕ → Except String Unit × DBState
  | db, [], _ => (.ok (), db)
  | db, item :: rest, i =>
    if fails i then (.error "failed to insert order item", db)
    else
      insertOrderItemsSeq orderId fails
        { db with orderItems := db.orderItems ++
            [{ orderId := orderId, name := item.name, quantity := item.quantity,
               price := item.price }] }
        rest (i + 1)

/-- `OrderService.countTotalPrice` (order/service.go lines 81-87). -/
def countTotalPrice (req : OrderRequest) : Money :=
  req.items.foldl (fun total item => total + item.price * (item.quantity : Money)) 0

/-- `OrderService.CreateOrder` of the rewrite (order/service.go lines
27-59 with order/postgres.go): validate, then `InsertOrder`,
`InsertOrderItems` and `AddInitialStatus` as three separate pool
operations with no surrounding transaction; `InsertOrder` persists
`processed_by = "order service"` and the later failures leave the
earlier rows in place. -/
def OrderServiceCreateOrder (db : DBState) (req : OrderRequest) (orderNumber : String)
    (o : SeqFailOracle) : Except String CreateOrderResponse × DBState :=
  if o.validateFails then (.error "validation failed", db)
  else
    let resp : CreateOrderResponse :=
      { orderNumber := orderNumber, status := "received", totalAmount := countTotalPrice req }
    let priority := setOrderPriority resp.totalAmount
    if o.insertOrderFails ∨ db.orders.any (fun r => r.number = orderNumber) then
      (.error "failed to insert order", db)
    else
      let orderId := db.orders.length + 1
      let db1 : DBState :=
        { db with orders := db.orders ++
            [{ id := orderId, number := orderNumber, customerName := req.customerName,
               type := req.orderType, tableNumber := some req.tableNumber,
               deliveryAddress := some req.deliveryAddr, totalAmount := resp.totalAmount,
               priority := priority, status := resp.status,
               processedBy := some "order service", completedAt := none }] }
      match insertOrderItemsSeq orderId o.itemInsertFails db1 req.items 0 with
      | (.error e, db2) => (.error e, db2)
      | (.ok _, db2) =>
        if o.statusLogInsertFails then (.error "failed to add initial status", db2)
        else
          (.ok resp,
            { db2 with statusLog := db2.statusLog ++
                [{ orderId := orderId, status := "received", changedBy := "order service",
                   notes := "initial status" }] })

/-- All database operations succeed and the publish succeeds. -/
def allOkOracle : FailOracle :=
  { beginFails := false, insertOrderFails := false, itemInsertFails := fun _ => false,
    statusLogInsertFails := false, commitFails := false, publishFails := false }

/-- All database operations succeed; only the publish fails. -/
def publishFailOracle : FailOracle :=
  { beginFails := false, insertOrderFails := false, itemInsertFails := fun _ => false,
    statusLogInsertFails := false, commitFails := false, publishFails := true }

/-- Every item insert of the run fails (the first one already does). -/
def itemFailOracle : SeqFailOracle :=
  { validateFails := false, insertOrderFails := false, itemInsertFails := fun _ => true,
    statusLogInsertFails := false }

/-- The §8 example request in the rewrite's request type. -/
def demoOrderRequest : OrderRequest :=
  { customerName := "Jane Smith", orderType := "delivery", tableNumber := 0,
    deliveryAddr := "123 Main Street",
    items := [{ name := "Pizza", quantity := 2, price := 10 }] }

/-- Claim C2 (code bug): the transactional `Service.CreateOrder`
(part_002) is atomic — whenever it returns an error the store is exactly
as before — but the rewrite's `OrderService.CreateOrder` performs its
three inserts without a transaction: on the §8 example request with a
failing item insert it returns an error while the order row is already
persisted (and neither item rows nor the `received` status-log row
exist), so the persisted state changed on error, contradicting the
claim. -/
theorem createOrder_atomic_vs_rewrite_partial_persist :
    (∀ db req num o, ((CreateOrder db req num o).result).isOk = true ∨
      (CreateOrder db req num o).db = db) ∧
    (OrderServiceCreateOrder emptyDB demoOrderRequest "ORD_20250101_001" itemFailOracle).1 =
      .error "failed to insert order item" ∧
    ((OrderServiceCreateOrder emptyDB demoOrderRequest "ORD_20250101_001" itemFailOracle).2.orders.length = 1 ∧
     (OrderServiceCreateOrder emptyDB demoOrderRequest "ORD_20250101_001" itemFailOracle).2.orderItems = [] ∧
     (OrderServiceCreateOrder emptyDB demoOrderRequest "ORD_20250101_001" itemFailOracle).2.statusLog = []) ∧
    (OrderServiceCreateOrder emptyDB demoOrderRequest "ORD_20250101_001" itemFailOracle).2 ≠ emptyDB := by
  refine ⟨?_, by decide, by decide, by decide⟩
  intro db req num o
  rcases h : createOrderTxBody db req num o with e | ⟨resp, db'⟩
  · right
    simp [CreateOrder, h]
  · left
    simp [CreateOrder, h, Except.isOk, Except.toBool]

lemma insertItemsLoop_noFail_ok (orderId : ℕ) (items : List OrderItem) :
    ∀ i, ∃ rows, insertItemsLoop orderId (fun _ => false) items i = .ok rows := by
  induction items with
  | nil => exact fun i => ⟨[], rfl⟩
  | cons item rest ih =>
    intro i
    obtain ⟨rows, hr⟩ := ih (i + 1)
    refine ⟨({ orderId := orderId, name := item.name, quantity := item.quantity,
               price := item.price } : OrderItemRow) :: rows, ?_⟩
    simp [insertItemsLoop, hr]

/-- Claim C6 (confirmed): when every database step succeeds but the
publish of the work message fails, `Service.CreateOrder` still returns
the successful `{order_number, status, total_amount}` response, the
store ends up exactly as on a run whose publish succeeds, and only the
`published` flag differs — the publish failure neither fails the request
nor rolls the order back. -/
theorem publish_failure_does_not_fail_createOrder (db : DBState)
    (req : CreateOrderRequest) (num : String)
    (hfresh : db.orders.any (fun r => r.number = num) = false) :
    (CreateOrder db req num publishFailOracle).result =
      .ok { orderNumber := num, status := "received",
            totalAmount := CalculateTotalAmount req } ∧
    (CreateOrder db req num publishFailOracle).result =
      (CreateOrder db req num allOkOracle).result ∧
    (CreateOrder db req num publishFailOracle).db =
      (CreateOrder db req num allOkOracle).db ∧
    (CreateOrder db req num publishFailOracle).published = false ∧
    (CreateOrder db req num allOkOracle).published = true := by
  obtain ⟨rows, hrows⟩ := insertItemsLoop_noFail_ok (db.orders.length + 1) req.items 0
  have hbody : ∀ o : FailOracle, o.beginFails = false → o.insertOrderFails = false →
      o.itemInsertFails = (fun _ => false) → o.statusLogInsertFails = false →
      o.commitFails = false →
      createOrderTxBody db req num o =
        .ok ({ orderNumber := num, status := "received",
               totalAmount := CalculateTotalAmount req },
          { db with
              orders := db.orders ++
                [{ id := db.orders.length + 1, number := num,
                   customerName := req.customerName, type := req.orderType,
                   tableNumber := req.tableNumber,
                   deliveryAddress := req.deliveryAddress,
                   totalAmount := CalculateTotalAmount req,
                   priority := CalculatePriority req, status := "received",
                   processedBy := none, completedAt := none }]
              orderItems := db.orderItems ++ rows
              statusLog := db.statusLog ++
                [{ orderId := db.orders.length + 1, status := "received",
                   changedBy := "order-service",
                   notes := "Order received and processed" }] }) := by
    intro o h1 h2 h3 h4 h5
    simp only [createOrderTxBody, h1, h2, h3, h4, h5, hfresh, hrows]
    simp
  have hfail := hbody publishFailOracle rfl rfl rfl rfl rfl
  have hok := hbody allOkOracle rfl rfl rfl rfl rfl
  refine ⟨?_, ?_, ?_, ?_, ?_⟩
  · rw [CreateOrder, hfail]
  · rw [CreateOrder, hfail, CreateOrder, hok]
  · rw [CreateOrder, hfail, CreateOrder, hok]
  · rw [CreateOrder, hfail]
    rfl
  · rw [CreateOrder, hok]
    rfl

/-- Witness for C6: creating the §8 example order on an empty store with
a failing publish still yields the 200 response with total 20. -/
theorem publish_failure_does_not_fail_createOrder_witness :
    (CreateOrder emptyDB (singleItemRequest 20) "ORD_20250101_001"
        publishFailOracle).result =
      .ok { orderNumber := "ORD_20250101_001", status := "received",
            totalAmount := CalculateTotalAmount (singleItemRequest 20) } ∧
    (CreateOrder emptyDB (singleItemRequest 20) "ORD_20250101_001"
        publishFailOracle).published = false := by
  obtain ⟨h1, -, -, h4, -⟩ :=
    publish_failure_does_not_fail_createOrder emptyDB (singleItemRequest 20)
      "ORD_20250101_001" (by decide)
  exact ⟨h1, h4⟩

/-! ## Kitchen worker and consumer (kitchen/worker.go, messaging/consumer.go) -/

/-- The worker's identity and specialization set
(`kitchen.Worker.name`, `kitchen.Worker.orderTypes`). -/
structure WorkerConfig where
  name : String
  orderTypes : List OrderType
deriving DecidableEq, Repr

/-- `models.OrderMessage` (message.go lines 9-18): the work message. -/
structure OrderMessage where
  orderNumber : String
  customerName : String
  orderType : String
  tableNumber : Option ℤ
  deliveryAddress : Option String
  items : List OrderItem
  totalAmount : Money
  priority : ℤ
deriving DecidableEq, Repr

/-- Failure oracle for a worker's message handling: whether the
`cooking` and `ready` transactions fail. (Notification publishes touch
no database state and their failures are swallowed — worker.go lines
174-179 and 204-209 — so they do not appear here.) -/
structure KitchenOracle where
  cookingTxFails : Bool
  readyTxFails : Bool
deriving DecidableEq, Repr

/-- `Worker.updateOrderStatus` (worker.go lines 220-251): one transaction
that sets the order's status to `cooking` and `processed_by` to the
worker's name, then looks the order id up (failing, and thus rolling
back, if no such order exists) and appends a status-log row. -/
def updateOrderStatusCooking (w : WorkerConfig) (db : DBState) (orderNumber : String)
    (txFails : Bool) : Except String DBState :=
  if txFails then .error "failed to update order status"
  else
    match db.orders.find? (fun r => r.number = orderNumber) with
    | none => .error "failed to get order ID"
    | some r =>
      .ok { db with
              orders := db.orders.map fun row =>
                if row.number = orderNumber then
                  { row with status := "cooking", processedBy := some w.name }
                else row
              statusLog := db.statusLog ++
                [{ orderId := r.id, status := "cooking", changedBy := w.name,
                   notes := "Order status changed to cooking by " ++ w.name }] }

/-- `Worker.updateOrderStatusReady` (worker.go lines 254-291): one
transaction that sets the order to `ready` with `completed_at`, appends a
status-log row and increments the worker's processed counter
(`UpdateWorkerHeartbeatSQL` also refreshes `last_seen`). -/
def updateOrderStatusReady (w : WorkerConfig) (db : DBState) (orderNumber : String)
    (now : ℤ) (txFails : Bool) : Except String DBState :=
  if txFails then .error "failed to update order to ready"
  else
    match db.orders.find? (fun r => r.number = orderNumber) with
    | none => .error "failed to get order ID"
    | some r =>
      .ok { db with
              orders := db.orders.map fun row =>
                if row.number = orderNumber then
                  { row with status := "ready", completedAt := some now }
                else row
              statusLog := db.statusLog ++
                [{ orderId := r.id, status := "ready", changedBy := w.name,
                   notes := "Order completed and ready for pickup/delivery" }]
              workers := db.workers.map fun wr =>
                if wr.name = w.name then
                  { wr with ordersProcessed := wr.ordersProcessed + 1, lastSeen := now }
                else wr }

/-- `Worker.processOrder` (worker.go lines 158-217): transition to
`cooking`, publish the cooking notification (best effort), sleep for the
cooking time, transition to `ready`, publish the ready notification
(best effort). A failing transaction aborts processing with an error and
leaves the state of that transaction untouched. -/
def processOrder (w : WorkerConfig) (db : DBState) (msg : OrderMessage) (now : ℤ)
    (o : KitchenOracle) : Except String Unit × DBState :=
  match updateOrderStatusCooking w db msg.orderNumber o.cookingTxFails with
  | .error e => (.error e, db)
  | .ok db1 =>
    match updateOrderStatusReady w db1 msg.orderNumber now o.readyTxFails with
    | .error e => (.error e, db1)
    | .ok db2 => (.ok (), db2)

/-- `Worker.handleMessage` (worker.go lines 125-155): parse the message
(`parsed = none` models a JSON parse failure), reject it with an error —
before any processing — when the order's type is outside a non-empty
specialization set, and otherwise run `processOrder`. -/
def handleMessage (w : WorkerConfig) (db : DBState) (parsed : Option OrderMessage)
    (now : ℤ) (o : KitchenOracle) : Except String Unit × DBState :=
  match parsed with
  | none => (.error "failed to parse message", db)
  | some msg =>
    if ¬ canHandleOrderType w.orderTypes msg.orderType then
      (.error ("worker cannot handle order type " ++ msg.orderType), db)
    else processOrder w db msg now o

/-- The broker acknowledgement decision. -/
inductive AckAction where
  | ack
  | nack (requeue : Bool)
deriving DecidableEq, Repr

/-- `Consumer.processMessage` (consumer.go lines 100-149): a handler
error is answered with `Nack(false, true)` — negative acknowledgement
with requeue — and a handler success with `Ack(false)`. -/
def processMessage (handlerResult : Except String Unit) : AckAction :=
  match handlerResult with
  | .error _ => .nack true
  | .ok _ => .ack

lemma canHandleOrderType_eq_false {l : List OrderType} {t : OrderType}
    (hne : l ≠ []) (hnot : t ∉ l) : canHandleOrderType l t = false := by
  rw [canHandleOrderType, if_neg hne, List.any_eq_false]
  intro x hx hxt
  exact hnot (of_decide_eq_true hxt ▸ hx)

/-- Claim C4 (confirmed): a work message whose order type is outside a
worker's non-empty specialization set is answered by `handleMessage`
with an error before any status update — the store is unchanged — the
consumer nacks it with requeue, and no order's `processed_by` becomes
that worker's name (it stays exactly as it was). -/
theorem specialization_mismatch_nack_requeue (w : WorkerConfig) (db : DBState)
    (msg : OrderMessage) (now : ℤ) (o : KitchenOracle)
    (hne : w.orderTypes ≠ []) (hnot : msg.orderType ∉ w.orderTypes) :
    handleMessage w db (some msg) now o =
      (.error ("worker cannot handle order type " ++ msg.orderType), db) ∧
    processMessage (handleMessage w db (some msg) now o).1 = .nack true ∧
    ((∀ r ∈ db.orders, r.processedBy ≠ some w.name) →
      ∀ r ∈ (handleMessage w db (some msg) now o).2.orders,
        r.processedBy ≠ some w.name) := by
  have hch := canHandleOrderType_eq_false hne hnot
  have hmain : handleMessage w db (some msg) now o =
      (.error ("worker cannot handle order type " ++ msg.orderType), db) := by
    rw [handleMessage, if_pos (by simp [hch])]
  refine ⟨hmain, ?_, ?_⟩
  · rw [hmain]
    rfl
  · intro hclean r hr
    rw [hmain] at hr
    exact hclean r hr


/-- A store holding one freshly received delivery order that no worker
has claimed. -/
def demoKitchenDB : DBState :=
  { emptyDB with orders :=
      [{ id := 1, number := "ORD_20250101_001", customerName := "Jane Smith",
         type := "delivery", tableNumber := none,
         deliveryAddress := some "123 Main Street", totalAmount := 20,
         priority := 1, status := "received", processedBy := none,
         completedAt := none }] }

/-- The work message for that order, routed with key `kitchen.delivery.1`. -/
def demoWorkMessage : OrderMessage :=
  { orderNumber := "ORD_20250101_001", customerName := "Jane Smith",
    orderType := "delivery", tableNumber := none,
    deliveryAddress := some "123 Main Street",
    items := [{ name := "Pizza", quantity := 2, price := 10 }],
    totalAmount := 20, priority := 1 }

/-- Witness for C4: a worker specialized only in `takeout` receiving a
`delivery` work message errors with the store untouched, and the order
keeps `processed_by` clear of that worker's name. -/
theorem specialization_mismatch_nack_requeue_witness :
    handleMessage ⟨"chef_anna", [Takeout]⟩ demoKitchenDB (some demoWorkMessage)
        0 ⟨false, false⟩ =
      (.error "worker cannot handle order type delivery", demoKitchenDB) ∧
    (∀ r ∈ (handleMessage ⟨"chef_anna", [Takeout]⟩ demoKitchenDB
        (some demoWorkMessage) 0 ⟨false, false⟩).2.orders,
      r.processedBy ≠ some "chef_anna") := by
  obtain ⟨h1, -, h3⟩ :=
    specialization_mismatch_nack_requeue ⟨"chef_anna", [Takeout]⟩ demoKitchenDB
      demoWorkMessage 0 ⟨false, false⟩ (by decide) (by decide)
  exact ⟨h1, h3 (by decide)⟩

/-! ## Claim C5: order-number generation
(part_002 `Service.generateOrderNumber` + `GetNextOrderNumberSQL`,
order/service.go `OrderService.generateOrderNumber`,
part_006 `GenerateOrderNumber`) -/

/-- The decimal digit characters. -/
def digitCh : ℕ → Char
  | 0 => '0' | 1 => '1' | 2 => '2' | 3 => '3' | 4 => '4'
  | 5 => '5' | 6 => '6' | 7 => '7' | 8 => '8' | 9 => '9'
  | _ => '?'

/-- The numeric value of a digit character. -/
def chVal (c : Char) : ℕ := c.toNat - 48

/-- The regex character class `[0-9]`. -/
def isDigitCh (c : Char) : Bool := decide (48 ≤ c.toNat ∧ c.toNat ≤ 57)

/-- Go's `%03d` formatting: the decimal digits, left-padded with zeroes
to at least three characters (`Nat.repr` covers the 4-digit-and-more
range, which is already unpadded). -/
def pad3 (n : ℕ) : List Char :=
  if n < 10 then ['0', '0', digitCh n]
  else if n < 100 then ['0', digitCh (n / 10), digitCh (n % 10)]
  else if n < 1000 then [digitCh (n / 100), digitCh (n / 10 % 10), digitCh (n % 10)]
  else (Nat.repr n).data

/-- The `ORD_<date>_` stem: both the shared prefix of the day's order
numbers and the SQL `LIKE 'ORD_<date>_%'` pattern of
`GetNextOrderNumberSQL`. -/
def ordPre (dateStr : List Char) : List Char :=
  'O' :: 'R' :: 'D' :: '_' :: (dateStr ++ ['_'])

/-- `models.GenerateOrderNumber` (part_006 lines 137-140):
`fmt.Sprintf("ORD_%s_%03d", dateStr, sequence)`. -/
def GenerateOrderNumber (dateStr : List Char) (sequence : ℕ) : List Char :=
  ordPre dateStr ++ pad3 sequence

/-- One attempted match of the POSIX regex `ORD_[0-9]{8}_([0-9]{3})` at
the head of the string, returning the value of the three captured
digits. -/
def matchCaptureAt (l : List Char) : Option ℕ :=
  match l with
  | o :: r :: dc :: u1 :: d1 :: d2 :: d3 :: d4 :: d5 :: d6 :: d7 :: d8 :: u2 :: e1 :: e2 :: e3 :: _ =>
    if o = 'O' ∧ r = 'R' ∧ dc = 'D' ∧ u1 = '_' ∧ u2 = '_' ∧
        isDigitCh d1 ∧ isDigitCh d2 ∧ isDigitCh d3 ∧ isDigitCh d4 ∧
        isDigitCh d5 ∧ isDigitCh d6 ∧ isDigitCh d7 ∧ isDigitCh d8 ∧
        isDigitCh e1 ∧ isDigitCh e2 ∧ isDigitCh e3 then
      some (100 * chVal e1 + 10 * chVal e2 + chVal e3)
    else none
  | _ => none

/-- PostgreSQL `SUBSTRING(number FROM 'ORD_[0-9]{8}_([0-9]{3})')`: the
capture of the leftmost match, if any. Note the capture group is exactly
three digits: a four-digit sequence part is parsed as its first three
digits. -/
def seqCapture : List Char → Option ℕ
  | [] => none
  | c :: rest =>
    match matchCaptureAt (c :: rest) with
    | some v => some v
    | none => seqCapture rest

/-- `GetNextOrderNumberSQL` (database/queries.go lines 36-39):
`COALESCE(MAX(CAST(SUBSTRING(number FROM 'ORD_[0-9]{8}_([0-9]{3})') AS
INTEGER)), 0) + 1` over the rows with `number LIKE 'ORD_<date>_%'`. -/
def GetNextOrderNumber (db : List (List Char)) (dateStr : List Char) : ℕ :=
  (((db.filter (fun n => (ordPre dateStr).isPrefixOf n)).filterMap seqCapture).foldr
    max 0) + 1

/-- `Service.generateOrderNumber` (part_002 lines 173-190): under the
order-number mutex, query the next sequence for today and format it. -/
def generateOrderNumberDB (db : List (List Char)) (dateStr : List Char) : List Char :=
  GenerateOrderNumber dateStr (GetNextOrderNumber db dateStr)

/-- A successful creation generates the number and inserts the order
row; the UNIQUE constraint on `orders.number` (migration 001) makes the
insert — and hence the creation — fail on a duplicate. -/
def createOrderNumberStep (db : List (List Char)) (dateStr : List Char) :
    Option (List Char) × List (List Char) :=
  let n := generateOrderNumberDB db dateStr
  if n ∈ db then (none, db) else (some n, db ++ [n])

/-- The numbers generated by `k` consecutive creations through
`Service.CreateOrder` (part_002), with the store threaded through;
`none` marks a failed creation. -/
def svcTrace (dateStr : List Char) : List (List Char) → ℕ →
    List (Option (List Char)) × List (List Char)
  | db, 0 => ([], db)
  | db, Nat.succ k =>
    let r := createOrderNumberStep db dateStr
    let rest := svcTrace dateStr r.2 k
    (r.1 :: rest.1, rest.2)

/-- `[GenerateOrderNumber d (j+1), ..., GenerateOrderNumber d (j+r)]`:
the expected numbers of creations `j+1` through `j+r` of a day. -/
def genListFrom (dateStr : List Char) (j : ℕ) : ℕ → List (List Char)
  | 0 => []
  | Nat.succ r => GenerateOrderNumber dateStr (j + 1) :: genListFrom dateStr (j + 1) r

/-- The process-local generator state of the rewrite's
`OrderService.generateOrderNumber` (order/service.go lines 12-15):
the package-level `orderCounter` and `lastOrderDate` variables
(`lastOrderDate = []` is Go's zero value `""`). -/
structure CounterState where
  orderCounter : ℕ
  lastOrderDate : List Char
deriving DecidableEq, Repr

/-- An `orders` row as seen by the counter seeding query: its creation
date and its number. -/
structure DatedOrder where
  createdDate : List Char
  number : List Char
deriving DecidableEq, Repr

/-- `Repository.GetOrderNumber` (order/postgres.go lines 55-62):
`SELECT COUNT(*) FROM orders WHERE DATE(created_at) = CURRENT_DATE`. -/
def countToday (db : List DatedOrder) (today : List Char) : ℕ :=
  (db.filter (fun r => r.createdDate = today)).length

/-- `OrderService.generateOrderNumber` (order/service.go lines 61-79):
seed the counter from the persisted count of today's orders when it is
zero, seed `lastOrderDate` when empty, reset the counter to zero on a
UTC-date change, increment, format, and remember today. -/
def generateOrderNumberLocal (today : List Char) (dbCountToday : ℕ)
    (st : CounterState) : List Char × CounterState :=
  let c0 := if st.orderCounter = 0 then dbCountToday else st.orderCounter
  let d0 := if st.lastOrderDate = [] then today else st.lastOrderDate
  let c1 := if today ≠ d0 then 0 else c0
  let c2 := c1 + 1
  (GenerateOrderNumber today c2, { orderCounter := c2, lastOrderDate := today })

/-- A successful creation through the rewrite: generate (seeding from
the store's count of today's rows), then insert, the UNIQUE constraint
rejecting duplicates. -/
def localCreateStep (today : List Char) (db : List DatedOrder) (st : CounterState) :
    Option (List Char) × List DatedOrder × CounterState :=
  let r := generateOrderNumberLocal today (countToday db today) st
  if r.1 ∈ db.map DatedOrder.number then (none, db, r.2)
  else (some r.1, db ++ [{ createdDate := today, number := r.1 }], r.2)

/-- `k` consecutive creations through the rewrite's
`OrderService.CreateOrder`, threading store and counter state. -/
def localTrace (today : List Char) : List DatedOrder → CounterState → ℕ →
    List (Option (List Char)) × List DatedOrder × CounterState
  | db, st, 0 => ([], db, st)
  | db, st, Nat.succ k =>
    let r := localCreateStep today db st
    let rest := localTrace today r.2.1 r.2.2 k
    (r.1 :: rest.1, rest.2)

lemma chVal_digitCh {i : ℕ} (hi : i ≤ 9) : chVal (digitCh i) = i := by
  interval_cases i <;> rfl

lemma isDigitCh_digitCh {i : ℕ} (hi : i ≤ 9) : isDigitCh (digitCh i) = true := by
  interval_cases i <;> rfl

lemma pad3_spec {i : ℕ} (hi : i ≤ 999) :
    ∃ a b c, pad3 i = [a, b, c] ∧ isDigitCh a = true ∧ isDigitCh b = true ∧
      isDigitCh c = true ∧ 100 * chVal a + 10 * chVal b + chVal c = i := by
  by_cases h1 : i < 10
  · refine ⟨'0', '0', digitCh i, ?_, rfl, rfl, isDigitCh_digitCh (by omega), ?_⟩
    · rw [pad3, if_pos h1]
    · rw [chVal_digitCh (by omega)]
      have h0 : chVal '0' = 0 := rfl
      omega
  · by_cases h2 : i < 100
    · refine ⟨'0', digitCh (i / 10), digitCh (i % 10), ?_, rfl,
        isDigitCh_digitCh (by omega), isDigitCh_digitCh (by omega), ?_⟩
      · rw [pad3, if_neg h1, if_pos h2]
      · rw [chVal_digitCh (show i / 10 ≤ 9 by omega), chVal_digitCh (show i % 10 ≤ 9 by omega)]
        have h0 : chVal '0' = 0 := rfl
        omega
    · refine ⟨digitCh (i / 100), digitCh (i / 10 % 10), digitCh (i % 10), ?_,
        isDigitCh_digitCh (by omega), isDigitCh_digitCh (by omega),
        isDigitCh_digitCh (by omega), ?_⟩
      · rw [pad3, if_neg h1, if_neg h2, if_pos (by omega)]
      · rw [chVal_digitCh (show i / 100 ≤ 9 by omega),
          chVal_digitCh (show i / 10 % 10 ≤ 9 by omega),
          chVal_digitCh (show i % 10 ≤ 9 by omega)]
        omega

lemma seqCapture_gen (c1 c2 c3 c4 c5 c6 c7 c8 : Char)
    (h1 : isDigitCh c1 = true) (h2 : isDigitCh c2 = true) (h3 : isDigitCh c3 = true)
    (h4 : isDigitCh c4 = true) (h5 : isDigitCh c5 = true) (h6 : isDigitCh c6 = true)
    (h7 : isDigitCh c7 = true) (h8 : isDigitCh c8 = true)
    {i : ℕ} (hi : i ≤ 999) :
    seqCapture (GenerateOrderNumber [c1, c2, c3, c4, c5, c6, c7, c8] i) = some i := by
  obtain ⟨a, b, c, hpad, ha, hb, hc, hval⟩ := pad3_spec hi
  have hfull : GenerateOrderNumber [c1, c2, c3, c4, c5, c6, c7, c8] i =
      'O' :: 'R' :: 'D' :: '_' :: c1 :: c2 :: c3 :: c4 :: c5 :: c6 :: c7 :: c8 ::
        '_' :: a :: b :: c :: [] := by
    simp [GenerateOrderNumber, ordPre, hpad]
  rw [hfull, seqCapture]
  have hmatch : matchCaptureAt
      ('O' :: 'R' :: 'D' :: '_' :: c1 :: c2 :: c3 :: c4 :: c5 :: c6 :: c7 :: c8 ::
        '_' :: a :: b :: c :: []) = some (100 * chVal a + 10 * chVal b + chVal c) := by
    rw [matchCaptureAt]
    rw [if_pos ⟨rfl, rfl, rfl, rfl, rfl, h1, h2, h3, h4, h5, h6, h7, h8, ha, hb, hc⟩]
  rw [hmatch, hval]

lemma genListFrom_succ_right (d : List Char) :
    ∀ r j, genListFrom d j (r + 1) =
      genListFrom d j r ++ [GenerateOrderNumber d (j + r + 1)] := by
  intro r
  induction r with
  | zero => intro j; rfl
  | succ r ih =>
    intro j
    calc genListFrom d j (r + 2)
        = GenerateOrderNumber d (j + 1) :: genListFrom d (j + 1) (r + 1) := rfl
      _ = GenerateOrderNumber d (j + 1) ::
            (genListFrom d (j + 1) r ++ [GenerateOrderNumber d (j + 1 + r + 1)]) := by
            rw [ih]
      _ = genListFrom d j (r + 1) ++ [GenerateOrderNumber d (j + r + 2)] := by
            have h1 : j + 1 + r + 1 = j + r + 2 := by omega
            rw [h1]
            rfl

lemma mem_genListFrom (d : List Char) :
    ∀ r j x, x ∈ genListFrom d j r →
      ∃ i, j < i ∧ i ≤ j + r ∧ x = GenerateOrderNumber d i := by
  intro r
  induction r with
  | zero => intro j x hx; simp [genListFrom] at hx
  | succ r ih =>
    intro j x hx
    rcases List.mem_cons.mp hx with h | h
    · exact ⟨j + 1, by omega, by omega, h⟩
    · obtain ⟨i, hi1, hi2, hi3⟩ := ih (j + 1) x h
      exact ⟨i, by omega, by omega, hi3⟩

lemma getElem_genListFrom (d : List Char) :
    ∀ r j t, t < r → (genListFrom d j r)[t]? = some (GenerateOrderNumber d (j + t + 1)) := by
  intro r
  induction r with
  | zero => intro j t ht; omega
  | succ r ih =>
    intro j t ht
    match t with
    | 0 =>
      show (GenerateOrderNumber d (j + 1) :: genListFrom d (j + 1) r)[0]? = _
      rw [List.getElem?_cons_zero]
    | Nat.succ t =>
      show (GenerateOrderNumber d (j + 1) :: genListFrom d (j + 1) r)[t + 1]? = _
      rw [List.getElem?_cons_succ, ih (j + 1) t (by omega)]
      have h2 : j + 1 + t + 1 = j + (t + 1) + 1 := by omega
      rw [h2]

lemma ordPre_isPrefixOf_gen (d : List Char) (i : ℕ) :
    (ordPre d).isPrefixOf (GenerateOrderNumber d i) = true := by
  rw [List.isPrefixOf_iff_prefix]
  exact List.prefix_append (ordPre d) (pad3 i)

lemma gen_inj (d : List Char)
    (hcap : ∀ i, i ≤ 999 → seqCapture (GenerateOrderNumber d i) = some i)
    {i i' : ℕ} (hi : i ≤ 999) (hi' : i' ≤ 999)
    (h : GenerateOrderNumber d i = GenerateOrderNumber d i') : i = i' := by
  have := hcap i hi
  rw [h, hcap i' hi'] at this
  exact (Option.some_injective ℕ this).symm

lemma gen_not_mem_genListFrom (d : List Char)
    (hcap : ∀ i, i ≤ 999 → seqCapture (GenerateOrderNumber d i) = some i)
    {i j r : ℕ} (hi : i ≤ 999) (hjr : j + r ≤ 999) (hout : i ≤ j ∨ j + r < i) :
    GenerateOrderNumber d i ∉ genListFrom d j r := by
  intro hmem
  obtain ⟨i', hi'1, hi'2, hi'3⟩ := mem_genListFrom d r j _ hmem
  have : i = i' := gen_inj d hcap hi (by omega) hi'3
  omega

lemma nodup_genListFrom (d : List Char)
    (hcap : ∀ i, i ≤ 999 → seqCapture (GenerateOrderNumber d i) = some i) :
    ∀ r j, j + r ≤ 999 → (genListFrom d j r).Nodup := by
  intro r
  induction r with
  | zero => intro j _; exact List.nodup_nil
  | succ r ih =>
    intro j hjr
    refine List.Nodup.cons ?_ (ih (j + 1) (by omega))
    intro hmem
    exact gen_not_mem_genListFrom d hcap (by omega) (by omega)
      (Or.inl (by omega)) hmem

/-- `[j+1, ..., j+r]`: the expected parsed sequence values. -/
def seqsFrom (j : ℕ) : ℕ → List ℕ
  | 0 => []
  | Nat.succ r => (j + 1) :: seqsFrom (j + 1) r

lemma filterMap_seqCapture_genListFrom (d : List Char)
    (hcap : ∀ i, i ≤ 999 → seqCapture (GenerateOrderNumber d i) = some i) :
    ∀ r j, j + r ≤ 999 →
      (genListFrom d j r).filterMap seqCapture = seqsFrom j r := by
  intro r
  induction r with
  | zero => intro j _; rfl
  | succ r ih =>
    intro j hjr
    show List.filterMap seqCapture
      (GenerateOrderNumber d (j + 1) :: genListFrom d (j + 1) r) = _
    rw [List.filterMap_cons, hcap (j + 1) (by omega), ih (j + 1) (by omega)]
    rfl

lemma foldrMax_seqsFrom : ∀ r j, List.foldr max 0 (seqsFrom j r) =
    if r = 0 then 0 else j + r := by
  intro r
  induction r with
  | zero => intro j; rfl
  | succ r ih =>
    intro j
    show max (j + 1) (List.foldr max 0 (seqsFrom (j + 1) r)) = _
    rw [ih (j + 1)]
    rcases r with - | r
    · simp
    · simp only [if_neg (Nat.succ_ne_zero r), if_neg (Nat.succ_ne_zero (r + 1))]
      omega

lemma filter_prefix_day (d : List Char) (db0 : List (List Char))
    (hclean : ∀ n ∈ db0, (ordPre d).isPrefixOf n = false) (j : ℕ) :
    (db0 ++ genListFrom d 0 j).filter (fun n => (ordPre d).isPrefixOf n) =
      genListFrom d 0 j := by
  rw [List.filter_append]
  have h1 : db0.filter (fun n => (ordPre d).isPrefixOf n) = [] := by
    rw [List.filter_eq_nil_iff]
    intro n hn
    simp [hclean n hn]
  have h2 : (genListFrom d 0 j).filter (fun n => (ordPre d).isPrefixOf n) =
      genListFrom d 0 j := by
    rw [List.filter_eq_self]
    intro n hn
    obtain ⟨i, -, -, hi⟩ := mem_genListFrom d j 0 n hn
    simp [hi, ordPre_isPrefixOf_gen]
  rw [h1, h2, List.nil_append]

lemma getNextOrderNumber_day (d : List Char)
    (hcap : ∀ i, i ≤ 999 → seqCapture (GenerateOrderNumber d i) = some i)
    (db0 : List (List Char))
    (hclean : ∀ n ∈ db0, (ordPre d).isPrefixOf n = false)
    {j : ℕ} (hj : j ≤ 999) :
    GetNextOrderNumber (db0 ++ genListFrom d 0 j) d = j + 1 := by
  rw [GetNextOrderNumber, filter_prefix_day d db0 hclean j,
    filterMap_seqCapture_genListFrom d hcap j 0 (by omega), foldrMax_seqsFrom]
  rcases j with - | j
  · rfl
  · rw [if_neg (Nat.succ_ne_zero j)]
    omega

lemma createStep_day (d : List Char)
    (hcap : ∀ i, i ≤ 999 → seqCapture (GenerateOrderNumber d i) = some i)
    (db0 : List (List Char))
    (hclean : ∀ n ∈ db0, (ordPre d).isPrefixOf n = false)
    {j : ℕ} (hj : j + 1 ≤ 999) :
    createOrderNumberStep (db0 ++ genListFrom d 0 j) d =
      (some (GenerateOrderNumber d (j + 1)), db0 ++ genListFrom d 0 (j + 1)) := by
  have hnum : generateOrderNumberDB (db0 ++ genListFrom d 0 j) d =
      GenerateOrderNumber d (j + 1) := by
    rw [generateOrderNumberDB, getNextOrderNumber_day d hcap db0 hclean (by omega)]
  have hnotmem : GenerateOrderNumber d (j + 1) ∉ db0 ++ genListFrom d 0 j := by
    rw [List.mem_append]
    rintro (h | h)
    · have := hclean _ h
      rw [ordPre_isPrefixOf_gen d (j + 1)] at this
      exact absurd this (by simp)
    · exact gen_not_mem_genListFrom d hcap (by omega) (by omega) (Or.inr (by omega)) h
  rw [createOrderNumberStep, hnum, if_neg hnotmem]
  rw [genListFrom_succ_right d j 0, ← List.append_assoc]
  have h0 : 0 + j + 1 = j + 1 := by omega
  rw [h0]

lemma svcTrace_day (d : List Char)
    (hcap : ∀ i, i ≤ 999 → seqCapture (GenerateOrderNumber d i) = some i)
    (db0 : List (List Char))
    (hclean : ∀ n ∈ db0, (ordPre d).isPrefixOf n = false) :
    ∀ r j, j + r ≤ 999 →
      svcTrace d (db0 ++ genListFrom d 0 j) r =
        ((genListFrom d j r).map some, db0 ++ genListFrom d 0 (j + r)) := by
  intro r
  induction r with
  | zero =>
    intro j hj
    show ([], db0 ++ genListFrom d 0 j) = _
    rw [Nat.add_zero]
    rfl
  | succ r ih =>
    intro j hjr
    show (let st := createOrderNumberStep (db0 ++ genListFrom d 0 j) d
      let rest := svcTrace d st.2 r
      (st.1 :: rest.1, rest.2)) = _
    rw [createStep_day d hcap db0 hclean (by omega)]
    simp only []
    rw [ih (j + 1) (by omega)]
    have h1 : j + 1 + r = j + (r + 1) := by omega
    rw [h1]
    rfl

/-- Today's rows for a list of order numbers. -/
def todayRows (d : List Char) (l : List (List Char)) : List DatedOrder :=
  l.map (fun n => { createdDate := d, number := n })

lemma map_number_todayRows (d : List Char) (l : List (List Char)) :
    (todayRows d l).map DatedOrder.number = l := by
  rw [todayRows, List.map_map]
  have h : (DatedOrder.number ∘ fun n => ({ createdDate := d, number := n } : DatedOrder)) = id := rfl
  rw [h, List.map_id]

lemma localStep_day (d : List Char)
    (hcap : ∀ i, i ≤ 999 → seqCapture (GenerateOrderNumber d i) = some i)
    (hne : d ≠ []) (db0' : List DatedOrder)
    (hclean' : ∀ row ∈ db0', (ordPre d).isPrefixOf row.number = false)
    {j : ℕ} (hj1 : 1 ≤ j) (hj : j + 1 ≤ 999) :
    localCreateStep d (db0' ++ todayRows d (genListFrom d 0 j)) ⟨j, d⟩ =
      (some (GenerateOrderNumber d (j + 1)),
       db0' ++ todayRows d (genListFrom d 0 (j + 1)),
       (⟨j + 1, d⟩ : CounterState)) := by
  have hgen : generateOrderNumberLocal d
      (countToday (db0' ++ todayRows d (genListFrom d 0 j)) d) ⟨j, d⟩ =
      (GenerateOrderNumber d (j + 1), ⟨j + 1, d⟩) := by
    simp [generateOrderNumberLocal, show j ≠ 0 by omega]
  have hnotmem : GenerateOrderNumber d (j + 1) ∉
      (db0' ++ todayRows d (genListFrom d 0 j)).map DatedOrder.number := by
    rw [List.map_append, map_number_todayRows, List.mem_append]
    rintro (h | h)
    · obtain ⟨row, hrow, hn⟩ := List.mem_map.mp h
      have := hclean' row hrow
      rw [hn, ordPre_isPrefixOf_gen d (j + 1)] at this
      exact absurd this (by simp)
    · exact gen_not_mem_genListFrom d hcap (by omega) (by omega) (Or.inr (by omega)) h
  rw [localCreateStep]
  simp only [hgen]
  have h0 : 0 + j + 1 = j + 1 := by omega
  rw [if_neg hnotmem, genListFrom_succ_right d j 0, h0]
  simp only [todayRows, List.map_append, List.map_cons, List.map_nil, List.append_assoc]

lemma localStep_first (d : List Char) (hne : d ≠ []) (db0' : List DatedOrder)
    (hcnt : countToday db0' d = 0)
    (hclean' : ∀ row ∈ db0', (ordPre d).isPrefixOf row.number = false) :
    localCreateStep d db0' ⟨0, []⟩ =
      (some (GenerateOrderNumber d 1),
       db0' ++ todayRows d (genListFrom d 0 1), (⟨1, d⟩ : CounterState)) := by
  have hgen : generateOrderNumberLocal d (countToday db0' d) ⟨0, []⟩ =
      (GenerateOrderNumber d 1, ⟨1, d⟩) := by
    simp [generateOrderNumberLocal, hcnt]
  have hnotmem : GenerateOrderNumber d 1 ∉ db0'.map DatedOrder.number := by
    intro h
    obtain ⟨row, hrow, hn⟩ := List.mem_map.mp h
    have := hclean' row hrow
    rw [hn, ordPre_isPrefixOf_gen d 1] at this
    exact absurd this (by simp)
  rw [localCreateStep]
  simp only [hgen]
  rw [if_neg hnotmem]
  rfl

lemma localTrace_day (d : List Char)
    (hcap : ∀ i, i ≤ 999 → seqCapture (GenerateOrderNumber d i) = some i)
    (hne : d ≠ []) (db0' : List DatedOrder)
    (hclean' : ∀ row ∈ db0', (ordPre d).isPrefixOf row.number = false) :
    ∀ r j, 1 ≤ j → j + r ≤ 999 →
      localTrace d (db0' ++ todayRows d (genListFrom d 0 j)) ⟨j, d⟩ r =
        ((genListFrom d j r).map some,
         db0' ++ todayRows d (genListFrom d 0 (j + r)),
         (⟨j + r, d⟩ : CounterState)) := by
  intro r
  induction r with
  | zero =>
    intro j hj1 hj
    show ([], db0' ++ todayRows d (genListFrom d 0 j), (⟨j, d⟩ : CounterState)) = _
    rw [Nat.add_zero]
    rfl
  | succ r ih =>
    intro j hj1 hjr
    show (let st := localCreateStep d (db0' ++ todayRows d (genListFrom d 0 j)) ⟨j, d⟩
      let rest := localTrace d st.2.1 st.2.2 r
      (st.1 :: rest.1, rest.2)) = _
    rw [localStep_day d hcap hne db0' hclean' hj1 (by omega)]
    simp only []
    rw [ih (j + 1) (by omega) (by omega)]
    have h1 : j + 1 + r = j + (r + 1) := by omega
    rw [h1]
    rfl

lemma localTrace_full (d : List Char)
    (hcap : ∀ i, i ≤ 999 → seqCapture (GenerateOrderNumber d i) = some i)
    (hne : d ≠ []) (db0' : List DatedOrder)
    (hcnt : countToday db0' d = 0)
    (hclean' : ∀ row ∈ db0', (ordPre d).isPrefixOf row.number = false)
    {k : ℕ} (hk : k ≤ 999) :
    (localTrace d db0' ⟨0, []⟩ k).1 = (genListFrom d 0 k).map some := by
  rcases k with - | k
  · rfl
  · show (let st := localCreateStep d db0' ⟨0, []⟩
      let rest := localTrace d st.2.1 st.2.2 k
      (st.1 :: rest.1, rest.2)).1 = _
    rw [localStep_first d hne db0' hcnt hclean']
    simp only []
    rw [localTrace_day d hcap hne db0' hclean' k 1 (by omega) (by omega)]
    rfl

/-- Claim C5 (confirmed): on a fresh UTC day (no persisted order yet
carries the day's `ORD_<date>_` stem) and within the three-digit `NNN`
range (at most 999 creations), both generators behave as claimed:
`Service.CreateOrder`'s database-backed generator and the rewrite's
seeded process-local counter both produce, for `k` consecutive
creations, exactly the numbers `ORD_<date>_001 .. ORD_<date>_k`
(every creation succeeds); the numbers are pairwise distinct; the `t`-th
number decodes to sequence `t+1`, so the day starts at 1 and each
successful creation increments the sequence by exactly 1; and the
counter is seeded from the persisted count on first use
(`counter = 0, lastOrderDate = ""` gives sequence `count+1`), continues
with `counter+1` within a day, and restarts at 1 on a UTC-date
rollover. -/
theorem orderNumber_form_unique_daily (c1 c2 c3 c4 c5 c6 c7 c8 : Char)
    (h1 : isDigitCh c1 = true) (h2 : isDigitCh c2 = true)
    (h3 : isDigitCh c3 = true) (h4 : isDigitCh c4 = true)
    (h5 : isDigitCh c5 = true) (h6 : isDigitCh c6 = true)
    (h7 : isDigitCh c7 = true) (h8 : isDigitCh c8 = true)
    (d : List Char) (hd : d = [c1, c2, c3, c4, c5, c6, c7, c8])
    (db0 : List (List Char))
    (hclean : ∀ n ∈ db0, (ordPre d).isPrefixOf n = false)
    (db0' : List DatedOrder)
    (hcnt : countToday db0' d = 0)
    (hclean' : ∀ row ∈ db0', (ordPre d).isPrefixOf row.number = false)
    (k : ℕ) (hk : k ≤ 999) :
    svcTrace d db0 k = ((genListFrom d 0 k).map some, db0 ++ genListFrom d 0 k) ∧
    (localTrace d db0' ⟨0, []⟩ k).1 = (genListFrom d 0 k).map some ∧
    (genListFrom d 0 k).Nodup ∧
    (∀ t, t < k → (genListFrom d 0 k)[t]? = some (GenerateOrderNumber d (t + 1))) ∧
    (∀ i, i ≤ 999 → seqCapture (GenerateOrderNumber d i) = some i) ∧
    (∀ cnt (st : CounterState), st.lastOrderDate = d → st.orderCounter ≠ 0 →
      (generateOrderNumberLocal d cnt st).1 =
        GenerateOrderNumber d (st.orderCounter + 1)) ∧
    (∀ cnt (st : CounterState), st.orderCounter ≠ 0 → st.lastOrderDate ≠ [] →
      st.lastOrderDate ≠ d →
      (generateOrderNumberLocal d cnt st).1 = GenerateOrderNumber d 1) ∧
    (∀ cnt, (generateOrderNumberLocal d cnt ⟨0, []⟩).1 =
      GenerateOrderNumber d (cnt + 1)) := by
  have hcap : ∀ i, i ≤ 999 → seqCapture (GenerateOrderNumber d i) = some i := by
    intro i hi
    rw [hd]
    exact seqCapture_gen c1 c2 c3 c4 c5 c6 c7 c8 h1 h2 h3 h4 h5 h6 h7 h8 hi
  have hne : d ≠ [] := by
    rw [hd]
    simp
  refine ⟨?_, ?_, ?_, ?_, hcap, ?_, ?_, ?_⟩
  · have h := svcTrace_day d hcap db0 hclean k 0 (by omega)
    have h0 : genListFrom d 0 0 = [] := rfl
    rw [h0, List.append_nil, Nat.zero_add] at h
    exact h
  · exact localTrace_full d hcap hne db0' hcnt hclean' hk
  · exact nodup_genListFrom d hcap k 0 (by omega)
  · intro t ht
    have h := getElem_genListFrom d k 0 t ht
    rw [Nat.zero_add] at h
    exact h
  · intro cnt st hdate hcnt0
    simp [generateOrderNumberLocal, hdate, hcnt0]
  · intro cnt st hcnt0 hdne hdd
    have hdd' : d ≠ st.lastOrderDate := fun h => hdd h.symm
    simp [generateOrderNumberLocal, hcnt0, hdne, hdd']
  · intro cnt
    simp [generateOrderNumberLocal]

/-- The sample date `20251011` as characters. -/
def demoDate : List Char := ['2', '0', '2', '5', '1', '0', '1', '1']

/-- Witness for C5: on the sample date with empty stores, three
consecutive creations through either implementation produce exactly
`ORD_20251011_001 .. _003`, pairwise distinct, and the rewrite's
generator restarts at 1 after a date rollover. -/
theorem orderNumber_form_unique_daily_witness :
    svcTrace demoDate [] 3 =
      ((genListFrom demoDate 0 3).map some, [] ++ genListFrom demoDate 0 3) ∧
    (localTrace demoDate [] ⟨0, []⟩ 3).1 = (genListFrom demoDate 0 3).map some ∧
    (genListFrom demoDate 0 3).Nodup ∧
    (generateOrderNumberLocal demoDate 0
      ⟨5, ['2', '0', '2', '5', '1', '0', '1', '0']⟩).1 =
      GenerateOrderNumber demoDate 1 := by
  obtain ⟨hA, hB, hC, -, -, -, hroll, -⟩ :=
    orderNumber_form_unique_daily '2' '0' '2' '5' '1' '0' '1' '1'
      (by decide) (by decide) (by decide) (by decide)
      (by decide) (by decide) (by decide) (by decide)
      demoDate rfl [] (by simp) [] rfl (by simp) 3 (by decide)
  exact ⟨hA, hB, hC,
    hroll 0 ⟨5, ['2', '0', '2', '5', '1', '0', '1', '0']⟩
      (by decide) (by decide) (by decide)⟩
